import Mathlib

/-!
Verification of the claude-proxy request/response pipeline
(`src/claude_proxy.py`), as a shallow embedding in Lean 4.

Python/JSON values are embedded as `JValue` (JSON `null` and Python
`None` coincide, exactly as `json.loads` collapses them).  The standard
library calls `json.loads` / `json.dumps` are deterministic pure
functions of their argument; they are modelled as oracle parameters
`loads : String → PyLoadResult` and `dumps : JValue → String` that each
theorem quantifies over.  Request bodies are modelled as `String`
(byte strings).
-/

namespace ClaudeProxy

/-- Embedding of the Python values produced by `json.loads`:
`null`/`None`, booleans, numbers (ints and floats, embedded in ℚ with
exact equality, matching Python numeric `==`), strings, lists, and
dicts (association lists in insertion order, no duplicate keys). -/
inductive JValue where
  | null : JValue
  | bool (b : Bool) : JValue
  | num (q : ℚ) : JValue
  | str (s : String) : JValue
  | arr (elems : List JValue) : JValue
  | obj (entries : List (String × JValue)) : JValue

/-- `v is None` in Python. -/
def JValue.isNull : JValue → Bool
  | .null => true
  | _ => false

/-- Lookup of a key in a Python dict (association list, first match). -/
def lookupKey : List (String × JValue) → String → Option JValue
  | [], _ => none
  | (k', v) :: rest, k => if k' = k then some v else lookupKey rest k

/-- Python `data.get(k)`: `None` (here `JValue.null`) when the key is
missing, and also when the stored value is JSON `null`. -/
def dictGet (d : List (String × JValue)) (k : String) : JValue :=
  (lookupKey d k).getD .null

/-- Python `data[k] = v`: replace in place when the key exists
(preserving insertion order), append at the end otherwise. -/
def dictSet : List (String × JValue) → String → JValue → List (String × JValue)
  | [], k, v => [(k, v)]
  | (k', v') :: rest, k, v =>
      if k' = k then (k, v) :: rest else (k', v') :: dictSet rest k v

mutual

/-- Python `==` on embedded values: `None == None`; `True == 1 == 1.0`;
numbers compare numerically; lists compare pointwise in order; dicts
compare by key set and values (order-insensitive). -/
def pyEq : JValue → JValue → Bool
  | .null, .null => true
  | .bool a, .bool b => a == b
  | .bool a, .num q => (if a then (1 : ℚ) else 0) == q
  | .num q, .bool b => q == (if b then (1 : ℚ) else 0)
  | .num a, .num b => a == b
  | .str a, .str b => a == b
  | .arr xs, .arr ys => pyEqList xs ys
  | .obj xs, .obj ys => xs.length == ys.length && pyEqEntries xs ys
  | _, _ => false

/-- Pointwise Python `==` on lists. -/
def pyEqList : List JValue → List JValue → Bool
  | [], [] => true
  | x :: xs, y :: ys => pyEq x y && pyEqList xs ys
  | _, _ => false

/-- Every entry of the first dict is matched by the second. -/
def pyEqEntries : List (String × JValue) → List (String × JValue) → Bool
  | [], _ => true
  | (k, v) :: xs, ys =>
      (match lookupKey ys k with
        | some w => pyEq v w
        | none => false) && pyEqEntries xs ys

end

/-- Unfolding lemma: `pyEq` on two numbers is numeric equality.
(`pyEq` is compiled by well-founded recursion, so its equations are
exposed as simp lemmas rather than by kernel reduction.) -/
theorem pyEq_num_num (a b : ℚ) : pyEq (.num a) (.num b) = (a == b) := by
  simp [pyEq]

/-- Unfolding lemma: `None == v` is false for non-`None` atoms. -/
theorem pyEq_null_num (q : ℚ) : pyEq .null (.num q) = false := by
  simp [pyEq]

/-- Unfolding lemma: a string never Python-equals a number. -/
theorem pyEq_str_num (s : String) (q : ℚ) : pyEq (.str s) (.num q) = false := by
  simp [pyEq]

/-- Unfolding lemma: `None == None` is true. -/
theorem pyEq_null_null : pyEq .null .null = true := by
  simp [pyEq]

/-- Python truthiness of an embedded value (`if value:`). -/
def pyTruthy : JValue → Bool
  | .null => false
  | .bool b => b
  | .num q => decide (q ≠ 0)
  | .str s => s ≠ ""
  | .arr xs => !xs.isEmpty
  | .obj kvs => !kvs.isEmpty

/-- Python `a or b`. -/
def pyOr (a b : JValue) : JValue := if pyTruthy a then a else b

/-- The three sampling parameters handled by the proxy. -/
inductive Param where
  | temperature : Param
  | top_p : Param
  | top_k : Param
deriving DecidableEq

/-- The JSON key of a parameter. -/
def Param.key : Param → String
  | .temperature => "temperature"
  | .top_p => "top_p"
  | .top_k => "top_k"

/-- Iteration order of the injection loop:
`for param in ("temperature", "top_p", "top_k")`. -/
def paramsList : List Param := [.temperature, .top_p, .top_k]

/-- The global `SAMPLING_CONFIG` dict: one value per parameter, with
`JValue.null` playing Python `None` (= unset). -/
structure SamplingConfig where
  temperature : JValue
  top_p : JValue
  top_k : JValue

/-- `SAMPLING_CONFIG.get(param)`. -/
def SamplingConfig.get (c : SamplingConfig) : Param → JValue
  | .temperature => c.temperature
  | .top_p => c.top_p
  | .top_k => c.top_k

/-- One change record, as printed by
`print(f"...Injected {param}: {old_val} -> {new}")`. -/
structure ChangeRec where
  param : Param
  oldVal : JValue
  newVal : JValue

/-- One iteration of the injection loop of `_inject_sampling_params`:
skip when `SAMPLING_CONFIG.get(param) is None`; otherwise read the old
value, write the override, and append a change record exactly when
`old_val != SAMPLING_CONFIG[param]`.  The `modified` flag of the source
is carried as non-emptiness of the record list (they are set in
lockstep). -/
def injectStep (cfg : SamplingConfig)
    (st : List (String × JValue) × List ChangeRec) (p : Param) :
    List (String × JValue) × List ChangeRec :=
  let v := cfg.get p
  if v.isNull then st
  else
    let old := dictGet st.1 p.key
    let d2 := dictSet st.1 p.key v
    if pyEq old v then (d2, st.2) else (d2, st.2 ++ [⟨p, old, v⟩])

/-- The full injection loop over the parsed object. -/
def injectObj (cfg : SamplingConfig) (kvs : List (String × JValue)) :
    List (String × JValue) × List ChangeRec :=
  paramsList.foldl (injectStep cfg) (kvs, [])

/-- Outcome of `json.loads`: either a `json.JSONDecodeError` or a
value. -/
inductive PyLoadResult where
  | decodeError : PyLoadResult
  | value (v : JValue) : PyLoadResult

/-- An uncaught Python exception escaping a modelled function.  The
only one that can arise in the rewrite step is the `AttributeError`
raised by `data.items()` when `json.loads` returns a non-dict. -/
inductive PyExn where
  | attributeError : PyExn

/-- `ProxyHandler._inject_sampling_params`.  `try: data = json.loads(body)`;
a decode error is caught and the body returned unchanged; a parsed
non-dict raises `AttributeError` at `data.items()`, which no handler in
this function catches; for a dict the loop runs and the body is
re-serialized only when `modified`. -/
def inject_sampling_params (loads : String → PyLoadResult)
    (dumps : JValue → String) (cfg : SamplingConfig) (body : String) :
    Except PyExn (String × List ChangeRec) :=
  match loads body with
  | .decodeError => .ok (body, [])
  | .value (.obj kvs) =>
      let res := injectObj cfg kvs
      if res.2.isEmpty then .ok (body, []) else .ok (dumps (.obj res.1), res.2)
  | .value _ => .error .attributeError

/-- Python's substring test `pat in s`. -/
def strContainsSub (s pat : String) : Bool :=
  (List.range (s.data.length + 1)).any fun i => pat.data.isPrefixOf (s.data.drop i)

/-- Truthiness of the request body read in `_proxy_request`
(`None` when `Content-Length` is 0; an empty byte string is also
falsy). -/
def bodyTruthy : Option String → Bool
  | none => false
  | some s => s ≠ ""

/-- Lines 89–91 of `_proxy_request`:
`if body and "/messages" in self.path: body = self._inject_sampling_params(body)`.
The change records are the log prints of the injection (empty when the
rewriter is not invoked). -/
def rewriteBody (loads : String → PyLoadResult) (dumps : JValue → String)
    (cfg : SamplingConfig) (path : String) (body : Option String) :
    Except PyExn (Option String × List ChangeRec) :=
  if bodyTruthy body && strContainsSub path "/messages" then
    match body with
    | some s => (inject_sampling_params loads dumps cfg s).map fun r => (some r.1, r.2)
    | none => .ok (none, [])
  else .ok (body, [])

/-! ## Configuration loading (`load_config_file` and the merge in `main`) -/

/-- One field of `load_config_file`, applied to the parsed file object:
`data.get(name) or data.get("preferred_" + name)` — Python `or`, i.e.
the canonical value when it is truthy, the alias lookup otherwise. -/
def loadConfigField (data : List (String × JValue)) (name : String) : JValue :=
  pyOr (dictGet data name) (dictGet data ("preferred_" ++ name))

/-- `load_config_file` on a file that exists and parses as a JSON
object: the three-key dict it builds from the parsed object. -/
def load_config_file (data : List (String × JValue)) : SamplingConfig :=
  ⟨loadConfigField data ("temperature"),
   loadConfigField data ("top_p"),
   loadConfigField data ("top_k")⟩

/-- `SAMPLING_CONFIG.update({k: v for k, v in file_config.items() if v is not None})`:
apply each non-`None` file value over the current config. -/
def applyFileConfig (cur fileCfg : SamplingConfig) : SamplingConfig :=
  ⟨if fileCfg.temperature.isNull then cur.temperature else fileCfg.temperature,
   if fileCfg.top_p.isNull then cur.top_p else fileCfg.top_p,
   if fileCfg.top_k.isNull then cur.top_k else fileCfg.top_k⟩

/-- The startup merge in `main`: `SAMPLING_CONFIG` starts all `None`;
the file config (present only when `--config` was given and usable) is
applied first; then each CLI argument that `is not None` overwrites its
field.  CLI values are numbers parsed by argparse. -/
def startupConfig (fileCfg : Option SamplingConfig)
    (cliT cliP cliK : Option ℚ) : SamplingConfig :=
  let c0 : SamplingConfig := ⟨.null, .null, .null⟩
  let c1 := match fileCfg with
    | some fc => applyFileConfig c0 fc
    | none => c0
  let c2 := match cliT with
    | some q => { c1 with temperature := .num q }
    | none => c1
  let c3 := match cliP with
    | some q => { c2 with top_p := .num q }
    | none => c2
  match cliK with
  | some q => { c3 with top_k := .num q }
  | none => c3

/-! ## The per-connection handler (`_proxy_request`, `do_OPTIONS`) -/

/-- An inbound HTTP request as the handler sees it. -/
structure InboundRequest where
  method : String
  path : String
  headers : List (String × String)
  body : Option String

/-- The outbound request handed to `urllib.request.urlopen`. -/
structure OutboundRequest where
  method : String
  url : String
  headers : List (String × String)
  body : Option String

/-- Outcome of the `urlopen` call as `_proxy_request` distinguishes it:
a 2xx streaming response, an `urllib.error.HTTPError` (upstream HTTP
error status surfaced as an exception), or any other exception
(DNS/connection/TLS/timeout failures). -/
inductive UpstreamOutcome where
  | success (status : Nat) (headers : List (String × String)) (chunks : List String)
  | httpError (code : Nat) (headers : List (String × String)) (body : String)
  | exn (msg : String)

/-- The response written back to the inbound client: status line,
headers sent via `send_header`, and the body bytes written. -/
structure ClientResponse where
  status : Nat
  headers : List (String × String)
  body : String

/-- `ANTHROPIC_API_URL`. -/
def ANTHROPIC_API_URL : String := "https://api.anthropic.com"

/-- Header filter for the outbound request:
`key.lower() not in ("host", "content-length")`. -/
def forwardReqHeaders (hs : List (String × String)) : List (String × String) :=
  hs.filter fun kv => !(kv.1.toLower == "host" || kv.1.toLower == "content-length")

/-- Header filter for the relayed response:
`key.lower() not in ("transfer-encoding", "connection")`. -/
def forwardRespHeaders (hs : List (String × String)) : List (String × String) :=
  hs.filter fun kv => !(kv.1.toLower == "transfer-encoding" || kv.1.toLower == "connection")

/-- `ProxyHandler._proxy_request`.  The network is modelled as a pure
oracle `upstream` mapping the outbound request to its outcome.  The
body is rewritten (lines 89–91, outside the `try`, so an exception
there propagates as `.error`); the `try` block then relays a success
streamwise (chunks concatenated), relays an `HTTPError` with the
upstream's own status/headers/body, and converts any other exception
into a synthesized 502 JSON error response. -/
def proxy_request (loads : String → PyLoadResult) (dumps : JValue → String)
    (cfg : SamplingConfig) (upstream : OutboundRequest → UpstreamOutcome)
    (method : String) (req : InboundRequest) : Except PyExn ClientResponse :=
  let targetUrl := ANTHROPIC_API_URL ++ req.path
  match rewriteBody loads dumps cfg req.path req.body with
  | .error e => .error e
  | .ok (body2, _recs) =>
      match upstream ⟨method, targetUrl, forwardReqHeaders req.headers, body2⟩ with
      | .success st hs chunks => .ok ⟨st, forwardRespHeaders hs, String.join chunks⟩
      | .httpError c hs b => .ok ⟨c, forwardRespHeaders hs, b⟩
      | .exn msg =>
          .ok ⟨502, [("Content-Type", "application/json")],
               dumps (.obj [("error", .str msg)])⟩

/-- `ProxyHandler.do_OPTIONS`: status 200, three permissive CORS
headers, no body, no forwarding. -/
def do_OPTIONS_response : ClientResponse :=
  ⟨200,
   [("Access-Control-Allow-Origin", "*"),
    ("Access-Control-Allow-Methods", "GET, POST, OPTIONS"),
    ("Access-Control-Allow-Headers", "*")],
   ""⟩

/-- Method dispatch of `BaseHTTPRequestHandler` over the three
implemented verbs (`do_OPTIONS`, `do_GET`, `do_POST`); any other verb
gets the transport's default 501 error. -/
def handleConnection (loads : String → PyLoadResult) (dumps : JValue → String)
    (cfg : SamplingConfig) (upstream : OutboundRequest → UpstreamOutcome)
    (req : InboundRequest) : Except PyExn ClientResponse :=
  if req.method = "OPTIONS" then .ok do_OPTIONS_response
  else if req.method = "GET" ∨ req.method = "POST" then
    proxy_request loads dumps cfg upstream req.method req
  else .ok ⟨501, [], ""⟩

/-! ## Dict lemmas -/

theorem lookupKey_dictSet_self (d : List (String × JValue)) (k : String) (v : JValue) :
    lookupKey (dictSet d k v) k = some v := by
  induction d with
  | nil => simp [dictSet, lookupKey]
  | cons kv rest ih =>
      by_cases h : kv.1 = k
      · simp [dictSet, lookupKey, h]
      · simp [dictSet, lookupKey, h, ih]

theorem lookupKey_dictSet_ne (d : List (String × JValue)) (k : String) (v : JValue)
    (k' : String) (h : k ≠ k') :
    lookupKey (dictSet d k v) k' = lookupKey d k' := by
  induction d with
  | nil => simp [dictSet, lookupKey, h]
  | cons kv rest ih =>
      by_cases hk : kv.1 = k
      · simp [dictSet, lookupKey, hk, h]
      · simp [dictSet, lookupKey, hk, ih]

theorem dictGet_dictSet_self (d : List (String × JValue)) (k : String) (v : JValue) :
    dictGet (dictSet d k v) k = v := by
  simp [dictGet, lookupKey_dictSet_self]

theorem dictGet_dictSet_ne (d : List (String × JValue)) (k : String) (v : JValue)
    (k' : String) (h : k ≠ k') :
    dictGet (dictSet d k v) k' = dictGet d k' := by
  simp [dictGet, lookupKey_dictSet_ne d k v k' h]

/-! ## Lemmas about the injection fold -/

theorem injectStep_fst (cfg : SamplingConfig)
    (st : List (String × JValue) × List ChangeRec) (p : Param) :
    (injectStep cfg st p).1 =
      if (cfg.get p).isNull then st.1 else dictSet st.1 p.key (cfg.get p) := by
  unfold injectStep
  by_cases h : (cfg.get p).isNull <;> simp [h]
  split <;> rfl

/-- Keys that no parameter of `ps` with a set override touches keep
their original binding through the fold. -/
theorem injectFold_lookup_frame (cfg : SamplingConfig) (ps : List Param) :
    ∀ (d : List (String × JValue)) (recs : List ChangeRec) (k : String),
    (∀ p ∈ ps, (cfg.get p).isNull = true ∨ p.key ≠ k) →
    lookupKey (ps.foldl (injectStep cfg) (d, recs)).1 k = lookupKey d k := by
  induction ps with
  | nil => intro d recs k _; rfl
  | cons a as ih =>
      intro d recs k h
      rw [List.foldl_cons]
      have hstep : (injectStep cfg (d, recs) a).1 =
          if (cfg.get a).isNull then d else dictSet d a.key (cfg.get a) :=
        injectStep_fst cfg (d, recs) a
      have htail : ∀ p ∈ as, (cfg.get p).isNull = true ∨ p.key ≠ k := by
        intro p hp; exact h p (List.mem_cons_of_mem a hp)
      rcases hEq : injectStep cfg (d, recs) a with ⟨d1, r1⟩
      rw [hEq] at hstep
      rw [ih d1 r1 k htail]
      simp only at hstep
      by_cases hn : (cfg.get a).isNull
      · rw [hstep, if_pos hn]
      · rw [hstep, if_neg hn]
        have hk : a.key ≠ k := by
          rcases h a (List.mem_cons_self a as) with h1 | h1
          · exact absurd h1 hn
          · exact h1
        exact lookupKey_dictSet_ne d a.key (cfg.get a) k hk

/-- A parameter with a set override ends up bound to exactly the
override value after the fold, as long as parameter keys are pairwise
distinct. -/
theorem injectFold_get_set (cfg : SamplingConfig) (ps : List Param) :
    ∀ (d : List (String × JValue)) (recs : List ChangeRec) (p : Param),
    ps.Pairwise (fun a b => a.key ≠ b.key) →
    p ∈ ps → (cfg.get p).isNull = false →
    dictGet (ps.foldl (injectStep cfg) (d, recs)).1 p.key = cfg.get p := by
  induction ps with
  | nil => intro d recs p _ hp; exact absurd hp (List.not_mem_nil p)
  | cons a as ih =>
      intro d recs p hpw hp hset
      rw [List.foldl_cons]
      rcases List.mem_cons.mp hp with rfl | hp'
      · -- p is the head: the step writes it, the tail never touches it
        have hstep : (injectStep cfg (d, recs) p).1 = dictSet d p.key (cfg.get p) := by
          rw [injectStep_fst, if_neg (by simp [hset])]
        have htail : ∀ q ∈ as, (cfg.get q).isNull = true ∨ q.key ≠ p.key := by
          intro q hq
          exact Or.inr (List.rel_of_pairwise_cons hpw hq).symm
        rcases hEq : injectStep cfg (d, recs) p with ⟨d1, r1⟩
        rw [hEq] at hstep
        simp only at hstep
        subst hstep
        have := injectFold_lookup_frame cfg as (dictSet d p.key (cfg.get p)) r1 p.key htail
        simp [dictGet, this, lookupKey_dictSet_self]
      · -- p is in the tail
        rcases hEq : injectStep cfg (d, recs) a with ⟨d1, r1⟩
        exact ih d1 r1 p (List.Pairwise.of_cons hpw) hp' hset

/-- The change records produced by the fold: exactly the parameters
whose override is set and differs (by Python `==`) from the value in
the dict at the start of the fold. -/
theorem injectFold_records (cfg : SamplingConfig) (ps : List Param) :
    ∀ (d d₀ : List (String × JValue)) (recs : List ChangeRec),
    ps.Pairwise (fun a b => a.key ≠ b.key) →
    (∀ p ∈ ps, dictGet d p.key = dictGet d₀ p.key) →
    (ps.foldl (injectStep cfg) (d, recs)).2 =
      recs ++ (ps.filter fun p =>
          !(cfg.get p).isNull && !(pyEq (dictGet d₀ p.key) (cfg.get p))).map
        (fun p => ⟨p, dictGet d₀ p.key, cfg.get p⟩) := by
  induction ps with
  | nil => intro d d₀ recs _ _; simp
  | cons a as ih =>
      intro d d₀ recs hpw hsame
      rw [List.foldl_cons]
      have hsame_a : dictGet d a.key = dictGet d₀ a.key :=
        hsame a (List.mem_cons_self a as)
      by_cases hn : (cfg.get a).isNull
      · -- override unset: the step is a no-op; `a` is filtered out
        have hstep : injectStep cfg (d, recs) a = (d, recs) := by
          unfold injectStep; rw [if_pos hn]
        rw [hstep, ih d d₀ recs (List.Pairwise.of_cons hpw)
          (fun p hp => hsame p (List.mem_cons_of_mem a hp))]
        simp [List.filter_cons, hn]
      · -- override set: the step writes a.key; the tail sees the other keys unchanged
        have htail : ∀ p ∈ as, dictGet (dictSet d a.key (cfg.get a)) p.key = dictGet d₀ p.key := by
          intro p hp
          rw [dictGet_dictSet_ne d a.key (cfg.get a) p.key
            (List.rel_of_pairwise_cons hpw hp)]
          exact hsame p (List.mem_cons_of_mem a hp)
        by_cases he : pyEq (dictGet d a.key) (cfg.get a)
        · -- equal: written but not recorded
          have hstep : injectStep cfg (d, recs) a = (dictSet d a.key (cfg.get a), recs) := by
            unfold injectStep; rw [if_neg (by simp [hn]), if_pos he]
          rw [hstep, ih _ d₀ recs (List.Pairwise.of_cons hpw) htail]
          have : (!(cfg.get a).isNull && !(pyEq (dictGet d₀ a.key) (cfg.get a))) = false := by
            rw [← hsame_a]; simp [he]
          simp [List.filter_cons, this]
        · -- different: written and recorded
          have hstep : injectStep cfg (d, recs) a =
              (dictSet d a.key (cfg.get a), recs ++ [⟨a, dictGet d a.key, cfg.get a⟩]) := by
            unfold injectStep; rw [if_neg (by simp [hn]), if_neg he]
          rw [hstep, ih _ d₀ _ (List.Pairwise.of_cons hpw) htail]
          have hpred : (!(cfg.get a).isNull && !(pyEq (dictGet d₀ a.key) (cfg.get a))) = true := by
            rw [← hsame_a]; simp [hn, he]
          simp [List.filter_cons, hpred, hsame_a]

/-- The keys of the three parameters are pairwise distinct. -/
theorem paramsList_pairwise : paramsList.Pairwise (fun a b => a.key ≠ b.key) := by
  simp [paramsList, Param.key]

/-- Every parameter is in the iteration list. -/
theorem mem_paramsList (p : Param) : p ∈ paramsList := by
  cases p <;> simp [paramsList]

/-- Distinct parameters have distinct keys. -/
theorem Param.key_inj {a b : Param} (h : a.key = b.key) : a = b := by
  cases a <;> cases b <;> first | rfl | (exact absurd h (by decide))

/-! ## C1: non-target or empty bodies pass through unchanged -/

/-- C1: for every body and override set, the rewrite step of
`_proxy_request` with a non-target path (no `/messages` substring) or a
falsy (absent/empty) body returns the body unchanged with an empty
change log. -/
theorem rewrite_nontarget_or_empty_unchanged (loads : String → PyLoadResult)
    (dumps : JValue → String) (cfg : SamplingConfig) (path : String)
    (body : Option String)
    (h : strContainsSub path ("/messages") = false ∨ bodyTruthy body = false) :
    rewriteBody loads dumps cfg path body = .ok (body, []) := by
  unfold rewriteBody
  rcases h with h | h <;> simp [h]

/-- Concrete instance of C1: a `GET /v1/models` body passes through. -/
theorem rewrite_nontarget_or_empty_unchanged_witness :
    rewriteBody (fun _ => .decodeError) (fun _ => "") ⟨.null, .null, .null⟩
      ("/v1/models") (some ("any body")) = .ok (some ("any body"), []) :=
  rewrite_nontarget_or_empty_unchanged _ _ _ _ _ (Or.inl (by decide))

/-! ## C2: malformed bodies on the target endpoint -/

/-- A concrete `loads` oracle under which the body parses as the JSON
array `[1]` — valid JSON, but not an object. -/
def loadsArr : String → PyLoadResult := fun _ => .value (.arr [.num 1])

/-- Counterexample to C2 as stated: the body `[1]` does not parse as a
single JSON object, yet on the target endpoint the rewrite step does
not return it unchanged — `json.loads` succeeds, so no
`json.JSONDecodeError` is raised, and `data.items()` then raises an
uncaught `AttributeError` that propagates out of the rewrite step (the
call site at line 91 sits outside the `try` of `_proxy_request`). -/
theorem rewrite_nonobject_raises :
    rewriteBody loadsArr (fun _ => "") ⟨.null, .null, .null⟩
      ("/v1/messages") (some ("[1]")) = .error .attributeError ∧
    rewriteBody loadsArr (fun _ => "") ⟨.null, .null, .null⟩
      ("/v1/messages") (some ("[1]")) ≠ .ok (some ("[1]"), []) :=
  ⟨rfl, fun h => Except.noConfusion h⟩

/-- C2 amended: restricted to bodies on which `json.loads` raises a
decode error (malformed JSON), the rewrite step on the target endpoint
returns the original bytes unchanged with an empty change log and
propagates nothing; bodies that parse as valid JSON non-objects are
excluded (they raise an uncaught `AttributeError`). -/
theorem rewrite_malformed_unchanged (loads : String → PyLoadResult)
    (dumps : JValue → String) (cfg : SamplingConfig) (path : String) (bs : String)
    (hload : loads bs = .decodeError) :
    rewriteBody loads dumps cfg path (some bs) = .ok (some bs, []) := by
  unfold rewriteBody
  by_cases hb : bodyTruthy (some bs) && strContainsSub path ("/messages")
  · simp only [hb, if_true]
    simp [inject_sampling_params, hload, Except.map]
  · simp [hb]

/-- Concrete instance of the amended C2: a malformed body on
`/v1/messages` is forwarded unchanged. -/
theorem rewrite_malformed_unchanged_witness :
    rewriteBody (fun _ => .decodeError) (fun _ => "") ⟨.num 1, .null, .null⟩
      ("/v1/messages") (some ("not json")) = .ok (some ("not json"), []) :=
  rewrite_malformed_unchanged _ _ _ _ _ rfl

/-! ## C3: idempotence on convergence -/

/-- C3: when the body parses as a JSON object in which every set
override already equals (Python `==`) the stored value, the injection
produces no change records and returns the original bytes unchanged
(no re-serialization). -/
theorem inject_idempotent_on_convergence (loads : String → PyLoadResult)
    (dumps : JValue → String) (cfg : SamplingConfig) (body : String)
    (kvs : List (String × JValue))
    (hload : loads body = .value (.obj kvs))
    (heq : ∀ p : Param, (cfg.get p).isNull = false →
      pyEq (dictGet kvs p.key) (cfg.get p) = true) :
    inject_sampling_params loads dumps cfg body = .ok (body, []) := by
  have hrecs : (injectObj cfg kvs).2 = [] := by
    unfold injectObj
    rw [injectFold_records cfg paramsList kvs kvs [] paramsList_pairwise (fun p _ => rfl)]
    have hfil : (paramsList.filter fun p =>
        !(cfg.get p).isNull && !(pyEq (dictGet kvs p.key) (cfg.get p))) = [] := by
      rw [List.filter_eq_nil_iff]
      intro p _
      by_cases hn : (cfg.get p).isNull
      · simp [hn]
      · have hn' : (cfg.get p).isNull = false := by simpa using hn
        simp [hn', heq p hn']
    simp [hfil]
  unfold inject_sampling_params
  rw [hload]
  simp [hrecs]

/-- Concrete instance of C3: override `temperature = 1` on a body whose
`temperature` is already `1` changes nothing. -/
theorem inject_idempotent_on_convergence_witness :
    inject_sampling_params
      (fun _ => .value (.obj [(("model"), .str ("x")), (("temperature"), .num 1)]))
      (fun _ => "") ⟨.num 1, .null, .null⟩ ("B") = .ok (("B"), []) :=
  inject_idempotent_on_convergence _ _ _ _ _ rfl
    (by
      intro p hp
      cases p
      · simp [dictGet, lookupKey, SamplingConfig.get, Param.key, pyEq_num_num]
      · exact absurd hp (by decide)
      · exact absurd hp (by decide))

/-! ## C4: overrides are applied, frame preserved, records exact -/

/-- C4: when the body parses as a JSON object and at least one set
override differs (Python `==`) from the stored value, the injection
returns the serialization of exactly the updated object: every set
override field holds its override value, all keys other than the three
parameter keys keep their original bindings (as do parameter keys with
an unset override), and the change records are exactly the set
overrides that differed from the original value (a missing key read as
`null`). -/
theorem inject_overrides_applied (loads : String → PyLoadResult)
    (dumps : JValue → String) (cfg : SamplingConfig) (body : String)
    (kvs : List (String × JValue))
    (hload : loads body = .value (.obj kvs))
    (hdiff : ∃ p : Param, (cfg.get p).isNull = false ∧
      pyEq (dictGet kvs p.key) (cfg.get p) = false) :
    inject_sampling_params loads dumps cfg body =
      .ok (dumps (.obj (injectObj cfg kvs).1), (injectObj cfg kvs).2) ∧
    (∀ p : Param, (cfg.get p).isNull = false →
      dictGet (injectObj cfg kvs).1 p.key = cfg.get p) ∧
    (∀ p : Param, (cfg.get p).isNull = true →
      lookupKey (injectObj cfg kvs).1 p.key = lookupKey kvs p.key) ∧
    (∀ k : String, (∀ p : Param, p.key ≠ k) →
      lookupKey (injectObj cfg kvs).1 k = lookupKey kvs k) ∧
    (injectObj cfg kvs).2 =
      (paramsList.filter fun p =>
          !(cfg.get p).isNull && !(pyEq (dictGet kvs p.key) (cfg.get p))).map
        (fun p => ⟨p, dictGet kvs p.key, cfg.get p⟩) := by
  have hrec : (injectObj cfg kvs).2 =
      (paramsList.filter fun p =>
          !(cfg.get p).isNull && !(pyEq (dictGet kvs p.key) (cfg.get p))).map
        (fun p => ⟨p, dictGet kvs p.key, cfg.get p⟩) := by
    unfold injectObj
    rw [injectFold_records cfg paramsList kvs kvs [] paramsList_pairwise (fun p _ => rfl)]
    simp
  have hne : (injectObj cfg kvs).2 ≠ [] := by
    obtain ⟨p, hp1, hp2⟩ := hdiff
    rw [hrec]
    have hmem : p ∈ paramsList.filter fun p =>
        !(cfg.get p).isNull && !(pyEq (dictGet kvs p.key) (cfg.get p)) :=
      List.mem_filter.mpr ⟨mem_paramsList p, by simp [hp1, hp2]⟩
    exact List.ne_nil_of_mem (List.mem_map_of_mem _ hmem)
  refine ⟨?_, ?_, ?_, ?_, hrec⟩
  · unfold inject_sampling_params
    rw [hload]
    simp [hne]
  · intro p hp
    exact injectFold_get_set cfg paramsList kvs [] p paramsList_pairwise
      (mem_paramsList p) hp
  · intro p hp
    refine injectFold_lookup_frame cfg paramsList kvs [] p.key ?_
    intro q _
    by_cases hq : q = p
    · exact Or.inl (hq ▸ hp)
    · exact Or.inr (fun hk => hq (Param.key_inj hk))
  · intro k hk
    refine injectFold_lookup_frame cfg paramsList kvs [] k ?_
    intro q _
    exact Or.inr (hk q)

/-- Concrete instance of C4 (the spec scenario with exact rationals):
body `{"model": "x", "temperature": 1}` with overrides
`temperature = 1/5, top_k = 40`. -/
theorem inject_overrides_applied_witness :
    inject_sampling_params
      (fun _ => .value (.obj [(("model"), .str ("x")), (("temperature"), .num 1)]))
      (fun _ => "out") ⟨.num (1/5), .null, .num 40⟩ ("B") =
      .ok ((fun (_ : JValue) => "out")
            (.obj (injectObj ⟨.num (1/5), .null, .num 40⟩
              [(("model"), .str ("x")), (("temperature"), .num 1)]).1),
          (injectObj ⟨.num (1/5), .null, .num 40⟩
            [(("model"), .str ("x")), (("temperature"), .num 1)]).2) :=
  (inject_overrides_applied
    (fun _ => .value (.obj [(("model"), .str ("x")), (("temperature"), .num 1)]))
    (fun _ => "out") ⟨.num (1/5), .null, .num 40⟩ ("B")
    [(("model"), .str ("x")), (("temperature"), .num 1)] rfl
    ⟨.temperature, by decide,
      by simp [dictGet, lookupKey, SamplingConfig.get, Param.key, pyEq_num_num]⟩).1

/-! ## C10: the rewrite step is a pure function of body, store, flag -/

/-- C10: the rewrite step is deterministic and depends on nothing but
the body bytes, the override store and the target-endpoint flag (the
`json` library functions are fixed pure oracles): two invocations with
the same body and store whose paths agree on containing `/messages`
give identical results. -/
theorem rewrite_deterministic (loads : String → PyLoadResult)
    (dumps : JValue → String) (cfg : SamplingConfig) (path₁ path₂ : String)
    (body : Option String)
    (h : strContainsSub path₁ ("/messages") = strContainsSub path₂ ("/messages")) :
    rewriteBody loads dumps cfg path₁ body = rewriteBody loads dumps cfg path₂ body := by
  unfold rewriteBody
  rw [h]

/-- Concrete instance of C10: two different target paths produce the
same rewrite. -/
theorem rewrite_deterministic_witness :
    rewriteBody (fun _ => .decodeError) (fun _ => "") ⟨.num 1, .null, .null⟩
      ("/a/messages") (some ("b")) =
    rewriteBody (fun _ => .decodeError) (fun _ => "") ⟨.num 1, .null, .null⟩
      ("/messages/c") (some ("b")) :=
  rewrite_deterministic _ _ _ _ _ _ (by decide)

/-! ## C5: config-file alias precedence -/

/-- A value `is None` exactly when it is the embedded `null`. -/
theorem JValue.isNull_eq_true_iff (v : JValue) : v.isNull = true ↔ v = .null := by
  cases v <;> simp [JValue.isNull]

/-- Counterexample to C5 as stated: with file content
`{"temperature": 0, "preferred_temperature": 9}` the canonical key is
non-null, yet the loaded value is the alias value 9, not 0 — the
source's `data.get(name) or data.get("preferred_" + name)` selects the
first *truthy* value, and `0` is falsy in Python. -/
theorem load_config_falsy_canonical_loses :
    (load_config_file [(("temperature"), .num 0), (("preferred_temperature"), .num 9)]).temperature
      = .num 9 ∧
    JValue.isNull (.num 0) = false := ⟨rfl, rfl⟩

/-- C5 amended: for each of the three fields, the loaded file value is
the canonical key's value whenever that value is *truthy* (Python
truthiness, so null, false, 0, empty string/array/object all lose);
otherwise it is the alias lookup's value (which may itself be null or
falsy). -/
theorem load_config_truthy_precedence (data : List (String × JValue)) (p : Param) :
    (pyTruthy (dictGet data p.key) = true →
      (load_config_file data).get p = dictGet data p.key) ∧
    (pyTruthy (dictGet data p.key) = false →
      (load_config_file data).get p = dictGet data (("preferred_") ++ p.key)) := by
  cases p <;>
    (constructor <;> intro h <;> simp only [Param.key] at h <;>
      simp [load_config_file, loadConfigField, SamplingConfig.get, Param.key, pyOr, h])

/-- Concrete instance of the amended C5 (the spec's alias-precedence
scenario with integer values): canonical 3 beats alias 9. -/
theorem load_config_truthy_precedence_witness :
    (load_config_file [(("temperature"), .num 3), (("preferred_temperature"), .num 9)]).get
      .temperature = .num 3 :=
  (load_config_truthy_precedence
    [(("temperature"), .num 3), (("preferred_temperature"), .num 9)] .temperature).1
    (by decide)

/-! ## C6: CLI-over-file merge precedence -/

/-- C6: after the startup merge, each field independently equals the
CLI value when the CLI provided one, else the file value when the file
provided one (non-null), else unset; with no usable file config the
file contribution is absent. -/
theorem startup_merge_precedence (fc : SamplingConfig) (cliT cliP cliK : Option ℚ) :
    startupConfig (some fc) cliT cliP cliK =
      ⟨(cliT.map JValue.num).getD fc.temperature,
       (cliP.map JValue.num).getD fc.top_p,
       (cliK.map JValue.num).getD fc.top_k⟩ ∧
    startupConfig none cliT cliP cliK =
      ⟨(cliT.map JValue.num).getD .null,
       (cliP.map JValue.num).getD .null,
       (cliK.map JValue.num).getD .null⟩ := by
  have hid : ∀ v : JValue, (if v.isNull then JValue.null else v) = v := by
    intro v
    by_cases h : v.isNull
    · rw [if_pos h, (JValue.isNull_eq_true_iff v).mp h]
    · rw [if_neg h]
  constructor <;>
    cases cliT <;> cases cliP <;> cases cliK <;>
      simp [startupConfig, applyFileConfig, hid]

/-! ## C7: upstream HTTP errors are relayed verbatim -/

/-- C7: when the forwarded request reaches the upstream call and it
raises an `HTTPError` (upstream non-2xx status surfaced as an
exception), the handler relays the upstream's own status code and body
verbatim, with the upstream headers filtered only of
`Transfer-Encoding` and `Connection` (case-insensitively) — no
synthesized 502. -/
theorem upstream_http_error_relayed (loads : String → PyLoadResult)
    (dumps : JValue → String) (cfg : SamplingConfig)
    (upstream : OutboundRequest → UpstreamOutcome) (method : String)
    (req : InboundRequest) (b2 : Option String) (recs : List ChangeRec)
    (c : Nat) (hs : List (String × String)) (b : String)
    (hrw : rewriteBody loads dumps cfg req.path req.body = .ok (b2, recs))
    (hup : ∀ r : OutboundRequest, upstream r = .httpError c hs b) :
    proxy_request loads dumps cfg upstream method req =
      .ok ⟨c, forwardRespHeaders hs, b⟩ ∧
    (∀ kv : String × String, kv ∈ forwardRespHeaders hs ↔ kv ∈ hs ∧
      kv.1.toLower ≠ ("transfer-encoding") ∧ kv.1.toLower ≠ ("connection")) := by
  constructor
  · unfold proxy_request
    rw [hrw]
    simp [hup]
  · intro kv
    simp [forwardRespHeaders, List.mem_filter, not_or, and_assoc]

/-- Concrete instance of C7: an upstream 429 is relayed as a 429 with
the upstream body, dropping only the `Transfer-Encoding` header. -/
theorem upstream_http_error_relayed_witness :
    proxy_request (fun _ => .decodeError) (fun _ => "") ⟨.null, .null, .null⟩
      (fun _ => .httpError 429
        [(("X-A"), ("1")), (("Transfer-Encoding"), ("chunked"))] ("rate"))
      ("POST") ⟨("POST"), ("/v1/messages"), [], none⟩ =
      .ok ⟨429,
        forwardRespHeaders [(("X-A"), ("1")), (("Transfer-Encoding"), ("chunked"))],
        ("rate")⟩ :=
  (upstream_http_error_relayed (fun _ => .decodeError) (fun _ => "")
    ⟨.null, .null, .null⟩
    (fun _ => .httpError 429
      [(("X-A"), ("1")), (("Transfer-Encoding"), ("chunked"))] ("rate"))
    ("POST") ⟨("POST"), ("/v1/messages"), [], none⟩ none [] 429
    [(("X-A"), ("1")), (("Transfer-Encoding"), ("chunked"))] ("rate")
    rfl (fun _ => rfl)).1

/-! ## C8: transport failures become a synthesized 502 JSON response -/

/-- C8: when the forwarded request reaches the upstream call and it
fails with any exception other than `HTTPError` (DNS, connection
refused, TLS, timeout), the handler answers the caller with status
502, `Content-Type: application/json`, and the `json.dumps` encoding
of the object with the single key `error` bound to the message; the
failure is contained — the handler returns a response and propagates
no exception. -/
theorem transport_error_becomes_502 (loads : String → PyLoadResult)
    (dumps : JValue → String) (cfg : SamplingConfig)
    (upstream : OutboundRequest → UpstreamOutcome) (method : String)
    (req : InboundRequest) (b2 : Option String) (recs : List ChangeRec)
    (msg : String)
    (hrw : rewriteBody loads dumps cfg req.path req.body = .ok (b2, recs))
    (hup : ∀ r : OutboundRequest, upstream r = .exn msg) :
    proxy_request loads dumps cfg upstream method req =
      .ok ⟨502, [(("Content-Type"), ("application/json"))],
           dumps (.obj [(("error"), .str msg)])⟩ ∧
    (∀ e : PyExn, proxy_request loads dumps cfg upstream method req ≠ .error e) := by
  have h1 : proxy_request loads dumps cfg upstream method req =
      .ok ⟨502, [(("Content-Type"), ("application/json"))],
           dumps (.obj [(("error"), .str msg)])⟩ := by
    unfold proxy_request
    rw [hrw]
    simp [hup]
  exact ⟨h1, fun e he => Except.noConfusion (h1.symm.trans he)⟩

/-- Concrete instance of C8: connection refused yields the synthesized
502 JSON error response. -/
theorem transport_error_becomes_502_witness :
    proxy_request (fun _ => .decodeError) (fun _ => "the error body")
      ⟨.null, .null, .null⟩ (fun _ => .exn ("connection refused"))
      ("POST") ⟨("POST"), ("/v1/messages"), [], none⟩ =
      .ok ⟨502, [(("Content-Type"), ("application/json"))], ("the error body")⟩ :=
  (transport_error_becomes_502 (fun _ => .decodeError) (fun _ => "the error body")
    ⟨.null, .null, .null⟩ (fun _ => .exn ("connection refused"))
    ("POST") ⟨("POST"), ("/v1/messages"), [], none⟩ none [] ("connection refused")
    rfl (fun _ => rfl)).1

/-! ## C9: OPTIONS preflight answered locally -/

/-- C9: every inbound `OPTIONS` request, whatever its path, is answered
locally with status 200, empty body and exactly the three permissive
CORS headers, without invoking the body rewriter or the upstream — the
response is independent of the upstream oracle. -/
theorem options_preflight (loads : String → PyLoadResult) (dumps : JValue → String)
    (cfg : SamplingConfig) (u₁ u₂ : OutboundRequest → UpstreamOutcome)
    (req : InboundRequest) (h : req.method = ("OPTIONS")) :
    handleConnection loads dumps cfg u₁ req = .ok do_OPTIONS_response ∧
    do_OPTIONS_response.status = 200 ∧
    do_OPTIONS_response.body = ("") ∧
    do_OPTIONS_response.headers =
      [(("Access-Control-Allow-Origin"), ("*")),
       (("Access-Control-Allow-Methods"), ("GET, POST, OPTIONS")),
       (("Access-Control-Allow-Headers"), ("*"))] ∧
    handleConnection loads dumps cfg u₁ req = handleConnection loads dumps cfg u₂ req := by
  refine ⟨?_, rfl, rfl, rfl, ?_⟩ <;> simp [handleConnection, h]

/-- Concrete instance of C9: `OPTIONS /v1/messages` gets the CORS
response. -/
theorem options_preflight_witness :
    handleConnection (fun _ => .decodeError) (fun _ => "") ⟨.null, .null, .null⟩
      (fun _ => .exn ("down")) ⟨("OPTIONS"), ("/v1/messages"), [], none⟩ =
      .ok do_OPTIONS_response :=
  (options_preflight _ _ _ (fun _ => .exn ("down")) (fun _ => .exn ("up")) _ rfl).1

end ClaudeProxy
